import Mathlib

/- Verification of the Accessible AI Translator core, embedded shallowly from
the TypeScript source: the AI gateway in `services/geminiService.ts`, and the
language-detection coordinator together with the translation session state
machine inside the `App` component. JavaScript strings are embedded as Lean
strings; the JavaScript methods `trim()` and `toLowerCase()` are embedded as
executable functions over the character list so that concrete states can be
evaluated by the kernel. -/

namespace TranslatorApp

/-- Embedding of the JavaScript method `String.prototype.trim`: drop leading
and trailing whitespace characters. -/
def jsTrim (s : String) : String :=
  ⟨((s.data.dropWhile Char.isWhitespace).reverse.dropWhile Char.isWhitespace).reverse⟩

/-- Embedding of the JavaScript method `String.prototype.toLowerCase`. -/
def jsToLower (s : String) : String :=
  ⟨s.data.map Char.toLower⟩

/-- Language record from `types.ts`: a language code with a display name. -/
structure Language where
  code : String
  name : String
deriving DecidableEq, Repr

/-- TranslationMode enumeration from `types.ts`. -/
inductive TranslationMode where
  | NORMAL
  | EASY_READ
  | AAC
deriving DecidableEq, Repr

/-- Modelled from the spec: the Language Catalog `LANGUAGES` exported by
`constants.ts`, a file of this repository that is not present under `src/`
(only its importers are). Per spec section 3 it is an immutable list of
code-to-name entries with unique codes, and the sentinel `auto` is not an
entry. The entries below cover every code the spec and the code mention:
`en` (English, the detection fallback), `it` (Italian, the default target),
`fr` (French), plus further catalog languages. -/
def LANGUAGES : List Language :=
  [⟨"en", "English"⟩, ⟨"it", "Italian"⟩, ⟨"fr", "French"⟩,
   ⟨"es", "Spanish"⟩, ⟨"de", "German"⟩, ⟨"ja", "Japanese"⟩]

/-- Constant `DETECT_LANGUAGE_CODE` from the `App` component. -/
def DETECT_LANGUAGE_CODE : String := "auto"

namespace geminiService

/-- Outcome contract of one gateway operation: the text payload on success,
or the thrown error message on failure. -/
abbrev GatewayResult := Except String String

/-- Catalog matching inside `detectLanguage` in `geminiService.ts`: the name
returned by the model is trimmed, lowercased and compared with the lowercased
catalog names; a match yields the entry code unmodified, otherwise the
function throws the unsupported-language error. -/
def detectLanguageMatch (langName : String) : GatewayResult :=
  match LANGUAGES.find? (fun lang => jsToLower lang.name == jsToLower (jsTrim langName)) with
  | some foundLang => .ok foundLang.code
  | none => .error ("Detected language \"" ++ langName ++ "\" is not supported.")

/-- Embedding of `detectLanguage` from `geminiService.ts`. The argument
stands for the outcome of the single model call (`.error` is a transport or
service failure carrying the thrown message). Every failure inside the `try`
block, including the unsupported-language throw, is caught by the
surrounding `catch` and rethrown as the one generic message. -/
def detectLanguage (modelResponse : GatewayResult) : GatewayResult :=
  match modelResponse.bind detectLanguageMatch with
  | .ok code => .ok code
  | .error _ => .error "Failed to detect language."

end geminiService

/-- Session state held by the `App` component in its `useState` hooks. -/
structure AppState where
  mode : TranslationMode
  inputText : String
  outputText : String
  sourceLang : String
  targetLang : String
  easyReadLevel : Nat
  isLoading : Bool
  isDetectingLang : Bool
  error : Option String
deriving DecidableEq, Repr

/-- Initial hook values of the `App` component. -/
def initialState : AppState :=
  { mode := .NORMAL, inputText := "", outputText := "",
    sourceLang := DETECT_LANGUAGE_CODE, targetLang := "it",
    easyReadLevel := 8, isLoading := false, isDetectingLang := false,
    error := none }

/-- Source selector options: the `auto` sentinel followed by the catalog. -/
def sourceLanguages : List Language :=
  ⟨DETECT_LANGUAGE_CODE, "Detect Language"⟩ :: LANGUAGES

/-- Derived target selector options: the catalog without the entries whose
code equals the current source code. -/
def targetLanguages (sourceLang : String) : List Language :=
  LANGUAGES.filter (fun lang => lang.code != sourceLang)

/-- User picks a mode in the mode selector. -/
def setModeOp (m : TranslationMode) (s : AppState) : AppState :=
  { s with mode := m }

/-- User edits the input text; includes the effect of `App` lines 296 to 300
that resets the source language to `auto` when the text becomes blank. -/
def setInputTextOp (t : String) (s : AppState) : AppState :=
  let s1 := { s with inputText := t }
  if jsTrim s1.inputText == "" && s1.sourceLang != DETECT_LANGUAGE_CODE then
    { s1 with sourceLang := DETECT_LANGUAGE_CODE }
  else s1

/-- User picks a source language in the source selector (unfiltered: the
sentinel plus the whole catalog). -/
def setSourceLangOp (c : String) (s : AppState) : AppState :=
  { s with sourceLang := c }

/-- User picks a target language in the filtered target selector. -/
def setTargetLangOp (c : String) (s : AppState) : AppState :=
  { s with targetLang := c }

/-- User moves the simplicity slider. -/
def setEasyReadLevelOp (n : Nat) (s : AppState) : AppState :=
  { s with easyReadLevel := n }

/-- Condition under which the detection effect arms the debounce timer and,
once the timer fires, issues a detection request (`App` line 259). -/
def detectionTriggered (s : AppState) : Bool :=
  s.sourceLang == DETECT_LANGUAGE_CODE && decide ((jsTrim s.inputText).length > 10)

/-- Replacement target computed on a detected-source and target collision
(`App` line 267): the English entry if its code differs from the detected
code, else the first catalog entry with a different code. -/
def newTargetFor (detectedLangCode : String) : Option Language :=
  (LANGUAGES.find? (fun l => l.code != detectedLangCode && l.code == "en")).orElse
    (fun _ => LANGUAGES.find? (fun l => l.code != detectedLangCode))

/-- Success continuation of a detection request (`App` lines 263 to 272 with
the `finally` on line 279). The parameters `capturedSource` and
`capturedTarget` are the `sourceLang` and `targetLang` values captured by the
effect closure of the render that issued the request; the re-check on line
264 reads these captured values, not the current state. -/
def applyDetectionSuccess (capturedSource capturedTarget detectedLangCode : String)
    (s : AppState) : AppState :=
  let s1 :=
    if capturedSource == DETECT_LANGUAGE_CODE then
      let s2 := { s with sourceLang := detectedLangCode }
      if capturedTarget == detectedLangCode then
        match newTargetFor detectedLangCode with
        | some newTarget => { s2 with targetLang := newTarget.code }
        | none => s2
      else s2
    else s
  { s1 with isDetectingLang := false }

/-- Failure continuation of a detection request (`App` lines 273 to 280).
The `catch` only logs to the console; it never writes the session error
field. -/
def applyDetectionFailure (capturedSource : String) (s : AppState) : AppState :=
  let s1 :=
    if capturedSource == DETECT_LANGUAGE_CODE then { s with sourceLang := "en" }
    else s
  { s1 with isDetectingLang := false }

/-- Gateway operations that `handleGenerate` can dispatch, with their
arguments (the exports of `geminiService.ts`; the spec calls them translate,
simplify and convertToAAC). -/
inductive GatewayCall where
  | translateText (text sourceLang targetLang : String)
  | simplifyText (text lang : String) (level : Nat)
  | generateAAC (text lang : String)
deriving DecidableEq, Repr

/-- Display-name lookup for the source code (`App` line 345): the catalog
name when present, else the raw code. -/
def sourceLangName (s : AppState) : String :=
  match LANGUAGES.find? (fun l => l.code == s.sourceLang) with
  | some l => l.name
  | none => s.sourceLang

/-- Display-name lookup for the target code (`App` line 346). -/
def targetLangName (s : AppState) : String :=
  match LANGUAGES.find? (fun l => l.code == s.targetLang) with
  | some l => l.name
  | none => s.targetLang

/-- Precondition of `handleGenerate` (`App` line 339): non-blank input and a
concrete source language. -/
def generatePrecond (s : AppState) : Bool :=
  jsTrim s.inputText != "" && s.sourceLang != DETECT_LANGUAGE_CODE

/-- Mode dispatch of `handleGenerate` (`App` lines 348 to 358). -/
def generateDispatch (s : AppState) : GatewayCall :=
  match s.mode with
  | .NORMAL => .translateText s.inputText (sourceLangName s) (targetLangName s)
  | .EASY_READ => .simplifyText s.inputText (sourceLangName s) s.easyReadLevel
  | .AAC => .generateAAC s.inputText (sourceLangName s)

/-- Embedding of `handleGenerate` (`App` lines 338 to 365). The gateway is
an oracle from the dispatched call to the outcome of the one network
request. Returns the final state together with the list of gateway calls
issued during the run. -/
def handleGenerate (gw : GatewayCall → geminiService.GatewayResult) (s : AppState) :
    AppState × List GatewayCall :=
  if generatePrecond s then
    let s1 := { s with isLoading := true, error := none, outputText := "" }
    let call := generateDispatch s1
    match gw call with
    | .ok result => ({ s1 with outputText := result, isLoading := false }, [call])
    | .error msg => ({ s1 with error := some msg, isLoading := false }, [call])
  else (s, [])

/-- Embedding of `handleSwapLanguages` (`App` lines 331 to 336). -/
def handleSwapLanguages (s : AppState) : AppState :=
  if s.mode == TranslationMode.NORMAL && s.sourceLang != DETECT_LANGUAGE_CODE then
    { s with sourceLang := s.targetLang, targetLang := s.sourceLang }
  else s

/-- One user action or asynchronous completion of the session state machine.
Detection completions carry the closure-captured source and target values of
the issuing render, which a concurrent user action may have left stale; a
successful detection always delivers a catalog code, since
`geminiService.detectLanguage` only succeeds with one. -/
inductive Step : AppState → AppState → Prop where
  | setMode {s : AppState} (m : TranslationMode) : Step s (setModeOp m s)
  | setInputText {s : AppState} (t : String) : Step s (setInputTextOp t s)
  | setSourceLang {s : AppState} (c : String)
      (h : c ∈ sourceLanguages.map Language.code) : Step s (setSourceLangOp c s)
  | setTargetLang {s : AppState} (c : String)
      (h : c ∈ (targetLanguages s.sourceLang).map Language.code) :
      Step s (setTargetLangOp c s)
  | setEasyReadLevel {s : AppState} (n : Nat) : Step s (setEasyReadLevelOp n s)
  | swap {s : AppState} : Step s (handleSwapLanguages s)
  | generate {s : AppState} (gw : GatewayCall → geminiService.GatewayResult) :
      Step s (handleGenerate gw s).1
  | detectSuccess {s : AppState} (capSrc capTgt detected : String)
      (h : detected ∈ LANGUAGES.map Language.code) :
      Step s (applyDetectionSuccess capSrc capTgt detected s)
  | detectFailure {s : AppState} (capSrc : String) :
      Step s (applyDetectionFailure capSrc s)

/-- Session states reachable from the initial hook values. -/
inductive Reachable : AppState → Prop where
  | init : Reachable initialState
  | step {s t : AppState} : Reachable s → Step s t → Reachable t

lemma handleGenerate_preserves (gw : GatewayCall → geminiService.GatewayResult)
    (s : AppState) :
    (handleGenerate gw s).1.sourceLang = s.sourceLang ∧
    (handleGenerate gw s).1.targetLang = s.targetLang ∧
    (handleGenerate gw s).1.mode = s.mode := by
  unfold handleGenerate
  split
  · dsimp only
    split <;> exact ⟨rfl, rfl, rfl⟩
  · exact ⟨rfl, rfl, rfl⟩

lemma handleSwapLanguages_mode (s : AppState) :
    (handleSwapLanguages s).mode = s.mode := by
  unfold handleSwapLanguages
  split <;> rfl

lemma catalog_codes_ne_auto :
    ∀ c ∈ LANGUAGES.map Language.code, c ≠ DETECT_LANGUAGE_CODE := by decide

lemma mem_targetLanguages_code {c src : String}
    (h : c ∈ (targetLanguages src).map Language.code) :
    c ∈ LANGUAGES.map Language.code ∧ c ≠ src := by
  rcases List.mem_map.mp h with ⟨l, hl, rfl⟩
  rcases List.mem_filter.mp hl with ⟨hmem, hcode⟩
  exact ⟨List.mem_map_of_mem _ hmem, by simpa using hcode⟩

lemma newTargetFor_code_ne {d : String} {t : Language}
    (h : newTargetFor d = some t) : t.code ≠ d := by
  unfold newTargetFor at h
  rcases h1 : LANGUAGES.find? (fun l => l.code != d && l.code == "en") with _ | a
  · rw [h1] at h
    have h2 : LANGUAGES.find? (fun l => l.code != d) = some t := h
    simpa using List.find?_some h2
  · rw [h1] at h
    cases Option.some.inj h
    have h2 := List.find?_some h1
    simp only [Bool.and_eq_true] at h2
    simpa using h2.1

lemma newTargetFor_mem {d : String} {t : Language}
    (h : newTargetFor d = some t) : t ∈ LANGUAGES := by
  unfold newTargetFor at h
  rcases h1 : LANGUAGES.find? (fun l => l.code != d && l.code == "en") with _ | a
  · rw [h1] at h
    have h2 : LANGUAGES.find? (fun l => l.code != d) = some t := h
    exact List.mem_of_find?_eq_some h2
  · rw [h1] at h
    cases Option.some.inj h
    exact List.mem_of_find?_eq_some h1

lemma newTargetFor_isSome (d : String) : ∃ t, newTargetFor d = some t := by
  by_cases hd : d = "en"
  · subst hd
    exact ⟨⟨"it", "Italian"⟩, by decide⟩
  · refine ⟨⟨"en", "English"⟩, ?_⟩
    have hne : (("en" : String) != d) = true := by
      simp only [bne_iff_ne, ne_eq]
      exact fun hEq => hd hEq.symm
    unfold newTargetFor LANGUAGES
    simp [List.find?, hne]

lemma step_preserves_target_ne_auto {s t : AppState} (hs : Step s t)
    (ih : s.targetLang ≠ DETECT_LANGUAGE_CODE) :
    t.targetLang ≠ DETECT_LANGUAGE_CODE := by
  cases hs with
  | setMode m => exact ih
  | setInputText t' =>
      unfold setInputTextOp
      dsimp only
      split <;> exact ih
  | setSourceLang c h => exact ih
  | setTargetLang c h =>
      have hc := (mem_targetLanguages_code h).1
      simpa [setTargetLangOp] using catalog_codes_ne_auto c hc
  | setEasyReadLevel n => exact ih
  | swap =>
      unfold handleSwapLanguages
      split
      next hcond =>
        simp only [Bool.and_eq_true] at hcond
        simpa using hcond.2
      next => exact ih
  | generate gw =>
      rw [(handleGenerate_preserves gw _).2.1]
      exact ih
  | detectSuccess capSrc capTgt detected h =>
      unfold applyDetectionSuccess
      dsimp only
      split
      next =>
        split
        next =>
          rcases hfind : newTargetFor detected with _ | nt
          · simpa [hfind] using ih
          · have hmem := newTargetFor_mem hfind
            simpa [hfind] using
              catalog_codes_ne_auto nt.code (List.mem_map_of_mem _ hmem)
        next => exact ih
      next => exact ih
  | detectFailure capSrc =>
      unfold applyDetectionFailure
      dsimp only
      split <;> exact ih

lemma reachable_target_ne_auto {s : AppState} (h : Reachable s) :
    s.targetLang ≠ DETECT_LANGUAGE_CODE := by
  induction h with
  | init => decide
  | step _ hstep ih => exact step_preserves_target_ne_auto hstep ih

/-- Session operations other than `setSourceLang`: every other user action,
`generate`, and the detection completions taken with a captured snapshot that
agrees with the current state (no concurrent user change between issuance and
completion); the detection-failure fallback is restricted to states whose
target is not the fallback code `en`, since that fallback overwrites the
source without any collision check on the target. -/
inductive NonSourceStep : AppState → AppState → Prop where
  | setMode {s : AppState} (m : TranslationMode) : NonSourceStep s (setModeOp m s)
  | setInputText {s : AppState} (t : String) : NonSourceStep s (setInputTextOp t s)
  | setTargetLang {s : AppState} (c : String)
      (h : c ∈ (targetLanguages s.sourceLang).map Language.code) :
      NonSourceStep s (setTargetLangOp c s)
  | setEasyReadLevel {s : AppState} (n : Nat) : NonSourceStep s (setEasyReadLevelOp n s)
  | swap {s : AppState} : NonSourceStep s (handleSwapLanguages s)
  | generate {s : AppState} (gw : GatewayCall → geminiService.GatewayResult) :
      NonSourceStep s (handleGenerate gw s).1
  | detectSuccess {s : AppState} (detected : String) :
      NonSourceStep s (applyDetectionSuccess s.sourceLang s.targetLang detected s)
  | detectFailure {s : AppState} (h : s.targetLang ≠ "en") :
      NonSourceStep s (applyDetectionFailure s.sourceLang s)

/-- C1: the claim states that a detection result arriving after the user
set a concrete source language never overwrites that choice. The code
violates this: the still-auto re-check on `App` line 264 reads the
closure-captured `sourceLang` of the render that issued the request, and a
request is only ever issued while that value is `auto`, so the check always
passes. In the trace below the user types French text into the fresh
session (issuing a detection request whose captured source and target are
`auto` and `it`), picks `es` while the request is in flight, and the late
success with `fr` then overwrites the choice. -/
theorem late_detection_overwrites_user_choice :
    detectionTriggered (setInputTextOp "Bonjour, comment allez-vous?" initialState) = true ∧
    (setInputTextOp "Bonjour, comment allez-vous?" initialState).sourceLang
      = DETECT_LANGUAGE_CODE ∧
    (setInputTextOp "Bonjour, comment allez-vous?" initialState).targetLang = "it" ∧
    (applyDetectionSuccess DETECT_LANGUAGE_CODE "it" "fr"
        (setSourceLangOp "es"
          (setInputTextOp "Bonjour, comment allez-vous?" initialState))).sourceLang
      = "fr" := by
  decide

/-- C2 (counterexample): picking the current target `it` as the source is a
single public operation from the initial state, and it yields a Normal-mode
state whose target equals its source; the target-list filtering constrains
only the target selector, not the `targetLang` field. -/
theorem target_eq_source_reachable :
    Reachable (setSourceLangOp "it" initialState) ∧
    (setSourceLangOp "it" initialState).mode = TranslationMode.NORMAL ∧
    (setSourceLangOp "it" initialState).targetLang
      = (setSourceLangOp "it" initialState).sourceLang :=
  ⟨Reachable.step Reachable.init (Step.setSourceLang "it" (by decide)), rfl, rfl⟩

/-- C2 (amended): in every reachable session state whose target differs
from its source, every public operation except `setSourceLang` preserves
the difference, taking detection completions with an up-to-date snapshot
and the detection-failure fallback in states whose target is not `en`;
`setSourceLang` itself can pick the current target and break the
invariant. -/
theorem target_ne_source_preserved_without_setSourceLang
    {s t : AppState} (hr : Reachable s)
    (hinv : s.targetLang ≠ s.sourceLang) (hstep : NonSourceStep s t) :
    t.targetLang ≠ t.sourceLang := by
  cases hstep with
  | setMode m => exact hinv
  | setInputText t' =>
      unfold setInputTextOp
      dsimp only
      split
      next => simpa using reachable_target_ne_auto hr
      next => exact hinv
  | setTargetLang c h =>
      rcases mem_targetLanguages_code h with ⟨_, hne⟩
      simpa [setTargetLangOp] using hne
  | setEasyReadLevel n => exact hinv
  | swap =>
      unfold handleSwapLanguages
      split
      next => exact fun hEq => hinv hEq.symm
      next => exact hinv
  | generate gw =>
      have h := handleGenerate_preserves gw s
      rw [h.1, h.2.1]
      exact hinv
  | detectSuccess detected =>
      unfold applyDetectionSuccess
      dsimp only
      split
      next =>
        split
        next =>
          rcases newTargetFor_isSome detected with ⟨nt, hfind⟩
          rw [hfind]
          simpa using newTargetFor_code_ne hfind
        next htgt => simpa using htgt
      next => exact hinv
  | detectFailure h =>
      unfold applyDetectionFailure
      dsimp only
      split
      next => simpa using h
      next => exact hinv

/-- C2 witness: the amended preservation applied to the initial state and
the filtered target selection of `fr`. -/
theorem target_ne_source_preserved_witness :
    (setTargetLangOp "fr" initialState).targetLang
      ≠ (setTargetLangOp "fr" initialState).sourceLang :=
  target_ne_source_preserved_without_setSourceLang Reachable.init (by decide)
    (NonSourceStep.setTargetLang "fr" (by decide))

/-- C3 (counterexample): an unmatched language name produces the very same
failure value as a transport failure, so the unsupported-language case is
not distinguishable from a gateway transport error by the caller. -/
theorem unmatched_language_failure_indistinguishable :
    geminiService.detectLanguage (.ok "Klingon")
      = geminiService.detectLanguage (.error "network failure") := by
  rfl

/-- C3 (amended): `detectLanguage` matches the trimmed returned name
case-insensitively against the catalog and on a match returns the entry
code unmodified; when no entry matches, the inner throw carries a distinct
unsupported-language message, but the surrounding catch replaces it with
the same generic message a transport failure produces, so callers cannot
tell the two failures apart. -/
theorem detectLanguage_matching (langName : String) :
    (∀ l : Language,
        LANGUAGES.find?
            (fun lang => jsToLower lang.name == jsToLower (jsTrim langName)) = some l →
        geminiService.detectLanguage (.ok langName) = .ok l.code) ∧
    (LANGUAGES.find?
          (fun lang => jsToLower lang.name == jsToLower (jsTrim langName)) = none →
        geminiService.detectLanguageMatch langName
          = .error ("Detected language \"" ++ langName ++ "\" is not supported.") ∧
        geminiService.detectLanguage (.ok langName)
          = .error "Failed to detect language.") ∧
    (∀ e : String,
        geminiService.detectLanguage (.error e) = .error "Failed to detect language.") := by
  refine ⟨?_, ?_, fun e => rfl⟩
  · intro l hl
    simp only [geminiService.detectLanguage, geminiService.detectLanguageMatch,
      Except.bind, hl]
  · intro hl
    constructor
    · simp only [geminiService.detectLanguageMatch, hl]
    · simp only [geminiService.detectLanguage, geminiService.detectLanguageMatch,
        Except.bind, hl]

/-- C3 witness: the mocked response with surrounding blanks and different
case matches the catalog name French and yields the code `fr` unmodified. -/
theorem detectLanguage_matching_witness :
    geminiService.detectLanguage (.ok "  FRENCH ") = .ok "fr" :=
  (detectLanguage_matching "  FRENCH ").1 ⟨"fr", "French"⟩ (by decide)

/-- C4: when its preconditions hold, one `generate` run issues exactly one
gateway call, and that call is the one the mode determines: Normal
translates with source and target names, EasyRead simplifies with the
level, and AAC converts with the source name. -/
theorem generate_issues_one_mode_call
    (gw : GatewayCall → geminiService.GatewayResult) (s : AppState)
    (h : generatePrecond s = true) :
    (handleGenerate gw s).2 = [generateDispatch s] ∧
    (s.mode = TranslationMode.NORMAL →
      generateDispatch s
        = .translateText s.inputText (sourceLangName s) (targetLangName s)) ∧
    (s.mode = TranslationMode.EASY_READ →
      generateDispatch s
        = .simplifyText s.inputText (sourceLangName s) s.easyReadLevel) ∧
    (s.mode = TranslationMode.AAC →
      generateDispatch s = .generateAAC s.inputText (sourceLangName s)) := by
  have hd : generateDispatch { s with isLoading := true, error := none, outputText := "" }
      = generateDispatch s := rfl
  refine ⟨?_, ?_, ?_, ?_⟩
  · unfold handleGenerate
    split
    next =>
      dsimp only
      rcases hgw : gw (generateDispatch
          { s with isLoading := true, error := none, outputText := "" }) with r | m <;>
        simp [hgw, hd]
    next hfalse => exact absurd h hfalse
  · intro hm
    unfold generateDispatch
    rw [hm]
  · intro hm
    unfold generateDispatch
    rw [hm]
  · intro hm
    unfold generateDispatch
    rw [hm]

/-- C4 witness: a Normal-mode run over a concrete state issues exactly the
translate call with the catalog names of its languages. -/
theorem generate_issues_one_mode_call_witness :
    (handleGenerate (fun _ => .ok "Ciao")
        { mode := TranslationMode.NORMAL, inputText := "Hello", outputText := "",
          sourceLang := "en", targetLang := "it", easyReadLevel := 8,
          isLoading := false, isDetectingLang := false, error := none }).2
      = [GatewayCall.translateText "Hello" "English" "Italian"] := by
  have h := generate_issues_one_mode_call (fun _ => .ok "Ciao")
    { mode := TranslationMode.NORMAL, inputText := "Hello", outputText := "",
      sourceLang := "en", targetLang := "it", easyReadLevel := 8,
      isLoading := false, isDetectingLang := false, error := none } (by decide)
  rw [h.1, h.2.1 rfl]
  decide

/-- C5: outcome handling of one `generate` run under its preconditions: a
gateway failure leaves the loading flag cleared, the output cleared, and
the message in the error field; a success leaves the loading flag cleared,
the error empty, and the result in the output field. -/
theorem generate_outcome_state
    (gw : GatewayCall → geminiService.GatewayResult) (s : AppState)
    (h : generatePrecond s = true) :
    (∀ msg, gw (generateDispatch s) = .error msg →
        (handleGenerate gw s).1.isLoading = false ∧
        (handleGenerate gw s).1.outputText = "" ∧
        (handleGenerate gw s).1.error = some msg) ∧
    (∀ result, gw (generateDispatch s) = .ok result →
        (handleGenerate gw s).1.isLoading = false ∧
        (handleGenerate gw s).1.error = none ∧
        (handleGenerate gw s).1.outputText = result) := by
  have hd : generateDispatch { s with isLoading := true, error := none, outputText := "" }
      = generateDispatch s := rfl
  constructor
  · intro msg hgw
    unfold handleGenerate
    split
    next =>
      dsimp only
      rw [hd, hgw]
      exact ⟨rfl, rfl, rfl⟩
    next hfalse => exact absurd h hfalse
  · intro result hgw
    unfold handleGenerate
    split
    next =>
      dsimp only
      rw [hd, hgw]
      exact ⟨rfl, rfl, rfl⟩
    next hfalse => exact absurd h hfalse

/-- C5 witness: with the gateway mocked to raise, a concrete Normal-mode
run ends with the loading flag cleared, a cleared output and the message in
the error field. -/
theorem generate_outcome_state_witness :
    (handleGenerate (fun _ => .error "Failed to get response from AI model.")
        { mode := TranslationMode.NORMAL, inputText := "Hello", outputText := "old",
          sourceLang := "en", targetLang := "it", easyReadLevel := 8,
          isLoading := false, isDetectingLang := false, error := none }).1.isLoading
      = false ∧
    (handleGenerate (fun _ => .error "Failed to get response from AI model.")
        { mode := TranslationMode.NORMAL, inputText := "Hello", outputText := "old",
          sourceLang := "en", targetLang := "it", easyReadLevel := 8,
          isLoading := false, isDetectingLang := false, error := none }).1.outputText
      = "" ∧
    (handleGenerate (fun _ => .error "Failed to get response from AI model.")
        { mode := TranslationMode.NORMAL, inputText := "Hello", outputText := "old",
          sourceLang := "en", targetLang := "it", easyReadLevel := 8,
          isLoading := false, isDetectingLang := false, error := none }).1.error
      = some "Failed to get response from AI model." :=
  (generate_outcome_state (fun _ => .error "Failed to get response from AI model.") _
      (by decide)).1 "Failed to get response from AI model." rfl

/-- C6: a `generate` call with blank input or the `auto` source is a silent
no-op: the state is returned entirely unchanged and no gateway call is
issued. -/
theorem generate_noop_on_precondition_violation
    (gw : GatewayCall → geminiService.GatewayResult) (s : AppState)
    (h : jsTrim s.inputText = "" ∨ s.sourceLang = DETECT_LANGUAGE_CODE) :
    handleGenerate gw s = (s, []) := by
  have hp : generatePrecond s = false := by
    unfold generatePrecond
    rcases h with h | h <;> simp [h]
  unfold handleGenerate
  rw [hp]
  rfl

/-- C6 witness: on the initial state, whose source is still `auto`, a
generate call with an always-succeeding gateway changes nothing and issues
no call. -/
theorem generate_noop_witness :
    handleGenerate (fun _ => .ok "result") initialState = (initialState, []) :=
  generate_noop_on_precondition_violation (fun _ => .ok "result") initialState
    (Or.inr rfl)

/-- C7: for every reachable Normal-mode session state with a concrete
source language, one swap exchanges the language pair exactly, and a second
swap restores the original pair. -/
theorem swap_involution (s : AppState) (hr : Reachable s)
    (hm : s.mode = TranslationMode.NORMAL)
    (hs : s.sourceLang ≠ DETECT_LANGUAGE_CODE) :
    (handleSwapLanguages s).sourceLang = s.targetLang ∧
    (handleSwapLanguages s).targetLang = s.sourceLang ∧
    (handleSwapLanguages (handleSwapLanguages s)).sourceLang = s.sourceLang ∧
    (handleSwapLanguages (handleSwapLanguages s)).targetLang = s.targetLang := by
  have ht := reachable_target_ne_auto hr
  have hcond : (s.mode == TranslationMode.NORMAL
      && s.sourceLang != DETECT_LANGUAGE_CODE) = true := by
    simp only [Bool.and_eq_true, beq_iff_eq, bne_iff_ne, ne_eq]
    exact ⟨hm, hs⟩
  have hcond2 : (s.mode == TranslationMode.NORMAL
      && s.targetLang != DETECT_LANGUAGE_CODE) = true := by
    simp only [Bool.and_eq_true, beq_iff_eq, bne_iff_ne, ne_eq]
    exact ⟨hm, ht⟩
  have hswap : handleSwapLanguages s
      = { s with sourceLang := s.targetLang, targetLang := s.sourceLang } := by
    unfold handleSwapLanguages
    rw [if_pos hcond]
  have hswap2 : handleSwapLanguages (handleSwapLanguages s) = s := by
    rw [hswap]
    unfold handleSwapLanguages
    rw [if_pos hcond2]
  rw [hswap2, hswap]
  exact ⟨rfl, rfl, rfl, rfl⟩

/-- C7 witness: from the initial state the user picks the source `en`
(target still `it`); one swap yields the pair `it` and `en`, a second swap
restores `en` and `it`. -/
theorem swap_involution_witness :
    (handleSwapLanguages (setSourceLangOp "en" initialState)).sourceLang = "it" ∧
    (handleSwapLanguages (setSourceLangOp "en" initialState)).targetLang = "en" ∧
    (handleSwapLanguages
        (handleSwapLanguages (setSourceLangOp "en" initialState))).sourceLang = "en" ∧
    (handleSwapLanguages
        (handleSwapLanguages (setSourceLangOp "en" initialState))).targetLang = "it" :=
  swap_involution (setSourceLangOp "en" initialState)
    (Reachable.step Reachable.init (Step.setSourceLang "en" (by decide))) rfl (by decide)

/-- C8: for every source value the derived target list consists of exactly
the catalog entries whose code differs from the source, and the sentinel
`auto` never appears in it. -/
theorem targetLanguages_excludes_source (src : String) :
    (∀ l : Language, l ∈ targetLanguages src ↔ l ∈ LANGUAGES ∧ l.code ≠ src) ∧
    (∀ l : Language, l ∈ targetLanguages src → l.code ≠ DETECT_LANGUAGE_CODE) := by
  have hmem : ∀ l : Language, l ∈ targetLanguages src ↔ l ∈ LANGUAGES ∧ l.code ≠ src := by
    intro l
    unfold targetLanguages
    rw [List.mem_filter]
    simp
  refine ⟨hmem, fun l hl => ?_⟩
  exact catalog_codes_ne_auto l.code (List.mem_map_of_mem _ ((hmem l).mp hl).1)

/-- C8 witness: with source `en`, the Italian entry is in the target list
since its code differs from `en`. -/
theorem targetLanguages_excludes_source_witness :
    (⟨"it", "Italian"⟩ : Language) ∈ targetLanguages "en" :=
  ((targetLanguages_excludes_source "en").1 ⟨"it", "Italian"⟩).mpr ⟨by decide, by decide⟩

/-- C9: when a detection attempt fails while the session source is still
`auto`, the source defaults to `en`, and the failure is never written to
the session error field. A request is only issued from a state satisfying
`detectionTriggered`, so the closure-captured source of any pending request
is `auto`; the state `s0` is the issuing snapshot and `s` the state at
completion. -/
theorem detection_failure_defaults_to_english (s0 s : AppState)
    (hiss : detectionTriggered s0 = true)
    (_hs : s.sourceLang = DETECT_LANGUAGE_CODE) :
    (applyDetectionFailure s0.sourceLang s).sourceLang = "en" ∧
    (∀ cap : String, (applyDetectionFailure cap s).error = s.error) := by
  have hcap : (s0.sourceLang == DETECT_LANGUAGE_CODE) = true := by
    have h := hiss
    simp only [detectionTriggered, Bool.and_eq_true] at h
    exact h.1
  constructor
  · unfold applyDetectionFailure
    rw [if_pos hcap]
  · intro cap
    unfold applyDetectionFailure
    dsimp only
    split <;> rfl

/-- C9 witness: the failure continuation of the request issued on the fresh
session with French text typed defaults the still-auto source to `en`. -/
theorem detection_failure_defaults_to_english_witness :
    (applyDetectionFailure
        (setInputTextOp "Bonjour, comment allez-vous?" initialState).sourceLang
        (setInputTextOp "Bonjour, comment allez-vous?" initialState)).sourceLang
      = "en" :=
  (detection_failure_defaults_to_english _ _ (by decide) (by decide)).1

/-- C10: outside Normal mode, or with the `auto` source, `handleSwapLanguages`
returns the state entirely unchanged: a complete no-op on every field. -/
theorem swap_noop_outside_preconditions (s : AppState)
    (h : s.mode ≠ TranslationMode.NORMAL ∨ s.sourceLang = DETECT_LANGUAGE_CODE) :
    handleSwapLanguages s = s := by
  have hc : ¬((s.mode == TranslationMode.NORMAL
      && s.sourceLang != DETECT_LANGUAGE_CODE) = true) := by
    simp only [Bool.and_eq_true, beq_iff_eq, bne_iff_ne, ne_eq]
    rintro ⟨hm, hsrc⟩
    rcases h with h | h
    · exact h hm
    · exact hsrc h
  unfold handleSwapLanguages
  rw [if_neg hc]

/-- C10 witness: in AAC mode with a concrete source, swapping changes
nothing. -/
theorem swap_noop_witness :
    handleSwapLanguages
        { mode := TranslationMode.AAC, inputText := "Hello", outputText := "",
          sourceLang := "en", targetLang := "it", easyReadLevel := 8,
          isLoading := false, isDetectingLang := false, error := none }
      = { mode := TranslationMode.AAC, inputText := "Hello", outputText := "",
          sourceLang := "en", targetLang := "it", easyReadLevel := 8,
          isLoading := false, isDetectingLang := false, error := none } :=
  swap_noop_outside_preconditions _ (Or.inl (by decide))

end TranslatorApp
